import Mathlib

/-
Verification of the session-store layer of the Telethon repository.

The only source file of the repository, `telethon/sessions/abstract.py`,
defines the abstract base class `Session`.  Its concrete code is:
the constructor (setting the two behavioural flags), the `clone` method,
the `report_errors` and `flood_sleep_threshold` property pair, and the
`list_sessions` classmethod; every other operation is declared abstract
and raises `NotImplementedError`.  The Backend component of the spec
(section 4.1) has no implementation in the repository, so it is modelled
from the spec where a claim needs it.
-/

namespace Telethon

/-- State of a `Session` object from `telethon/sessions/abstract.py`.
The fields `report_errors` and `flood_sleep_threshold` embed the private
attributes that the constructor sets and that the property getters return
unchanged.  The field `ext` stands for whatever further state an arbitrary
concrete subclass keeps (DC info, auth key, entity / file caches, update
state): the base class declares those operations abstract and stores
nothing for them itself. -/
structure Session (ε : Type) where
  report_errors : Bool
  flood_sleep_threshold : Int
  ext : ε

/-- Constructor of the base class: it sets `_report_errors = True` and
`_flood_sleep_threshold = 60`.  The argument `freshExt` is whatever extra
state the concrete subclass constructor initialises for itself when the
class is instantiated. -/
def Session.init {ε : Type} (freshExt : ε) : Session ε :=
  { report_errors := true, flood_sleep_threshold := 60, ext := freshExt }

/-- The `to_instance` argument of `Session.clone`, together with its Python
truthiness.  `pyNone` is the default argument `None`; `pyFalse` and `pyZero`
are other falsy Python values; `inst t b` is a session object `t` whose
truthiness is `b` (always `true` for the base class, which defines no
`__bool__`, but a subclass may override it). -/
inductive CloneTarget (ε : Type) where
  | pyNone : CloneTarget ε
  | pyFalse : CloneTarget ε
  | pyZero : CloneTarget ε
  | inst (t : Session ε) (truthy : Bool) : CloneTarget ε

/-- Python truthiness of a clone target, as the expression
`to_instance or self.__class__()` tests it. -/
def CloneTarget.isTruthy {ε : Type} : CloneTarget ε → Bool
  | .inst _ b => b
  | _ => false

/-- The `clone` method of the base class:
`cloned = to_instance or self.__class__()`, then
`cloned._report_errors = self.report_errors` and
`cloned._flood_sleep_threshold = self.flood_sleep_threshold`,
returning `cloned`.  A truthy `to_instance` is used as the clone; any
falsy value makes `or` fall through to a fresh instance of the source's
class, whose constructor yields default flags and subclass state
`freshExt`. -/
def Session.clone {ε : Type} (freshExt : ε) (s : Session ε)
    (to_instance : CloneTarget ε) : Session ε :=
  let cloned : Session ε :=
    match to_instance with
    | .inst t true => t
    | _ => Session.init freshExt
  { cloned with report_errors := s.report_errors,
                flood_sleep_threshold := s.flood_sleep_threshold }

/-- Setter of the `report_errors` property: `self._report_errors = value`. -/
def Session.set_report_errors {ε : Type} (s : Session ε) (value : Bool) :
    Session ε :=
  { s with report_errors := value }

/-- Setter of the `flood_sleep_threshold` property:
`self._flood_sleep_threshold = value`. -/
def Session.set_flood_sleep_threshold {ε : Type} (s : Session ε)
    (value : Int) : Session ε :=
  { s with flood_sleep_threshold := value }

/-- The `list_sessions` classmethod of the base class: `return []`. -/
def Session.list_sessions (ε : Type) : List (Session ε) := []

/-- Modelled from the spec: the Backend component ("a pluggable durable
key/value or record store", spec section 4.1) is not implemented in the
repository; only the abstract `Session` is.  A store is a sequence of
key/value records. -/
abbrev Store (κ ν : Type) := List (κ × ν)

/-- Modelled from the spec: the Backend operation
`read(key) -> value | NotFound`, with `none` for `NotFound`. -/
def Store.read {κ ν : Type} [DecidableEq κ] : Store κ ν → κ → Option ν
  | [], _ => none
  | (k', v') :: rest, k => if k' = k then some v' else Store.read rest k

/-- Modelled from the spec: writing a single key of a batch into the store,
replacing the record for that key if present and appending one otherwise. -/
def Store.writeOne {κ ν : Type} [DecidableEq κ] : Store κ ν → κ → ν → Store κ ν
  | [], k, v => [(k, v)]
  | (k', v') :: rest, k, v =>
      if k' = k then (k, v) :: rest else (k', v') :: Store.writeOne rest k v

/-- Modelled from the spec: the Backend operation
`atomic_write(batch of key→value)`, all-or-nothing across the batch. -/
def Store.atomic_write {κ ν : Type} [DecidableEq κ] (st : Store κ ν)
    (batch : List (κ × ν)) : Store κ ν :=
  batch.foldl (fun acc kv => Store.writeOne acc kv.1 kv.2) st

/-- Modelled from the spec: the state the store is left in when the process
crashes during `atomic_write`.  The atomicity contract of section 4.1 says
the batch either committed in full before the crash (`committed = true`) or
not at all, so the surviving state is exactly one of those two. -/
def Store.crash_during_atomic_write {κ ν : Type} [DecidableEq κ]
    (st : Store κ ν) (batch : List (κ × ν)) (committed : Bool) : Store κ ν :=
  if committed then Store.atomic_write st batch else st

theorem Store.read_writeOne_self {κ ν : Type} [DecidableEq κ]
    (st : Store κ ν) (k : κ) (v : ν) :
    Store.read (Store.writeOne st k v) k = some v := by
  induction st with
  | nil => simp [Store.writeOne, Store.read]
  | cons hd tl ih =>
      obtain ⟨k', v'⟩ := hd
      by_cases h : k' = k
      · simp [Store.writeOne, Store.read, h]
      · simp [Store.writeOne, Store.read, h, ih]

theorem Store.read_writeOne_other {κ ν : Type} [DecidableEq κ]
    (st : Store κ ν) (k q : κ) (v : ν) (h : q ≠ k) :
    Store.read (Store.writeOne st k v) q = Store.read st q := by
  induction st with
  | nil =>
      simp [Store.writeOne, Store.read, Ne.symm h]
  | cons hd tl ih =>
      obtain ⟨k', v'⟩ := hd
      by_cases hk : k' = k
      · subst hk
        simp [Store.writeOne, Store.read, Ne.symm h]
      · by_cases hq : k' = q
        · simp [Store.writeOne, Store.read, hk, hq, h]
        · simp [Store.writeOne, Store.read, hk, hq, ih]

/-- C2: a crash during an atomic write of a batch holding both a new auth
secret and new DC info leaves the store readable in either the complete
pre-write state or the complete post-write state on both keys, never one
old and one new value. -/
theorem crash_during_atomic_write_no_mix {κ ν : Type} [DecidableEq κ]
    (st : Store κ ν) (authKey dcKey : κ) (newAuth newDc : ν)
    (hk : authKey ≠ dcKey) (committed : Bool) :
    (Store.read (Store.crash_during_atomic_write st
        [(authKey, newAuth), (dcKey, newDc)] committed) authKey
          = Store.read st authKey ∧
     Store.read (Store.crash_during_atomic_write st
        [(authKey, newAuth), (dcKey, newDc)] committed) dcKey
          = Store.read st dcKey) ∨
    (Store.read (Store.crash_during_atomic_write st
        [(authKey, newAuth), (dcKey, newDc)] committed) authKey
          = some newAuth ∧
     Store.read (Store.crash_during_atomic_write st
        [(authKey, newAuth), (dcKey, newDc)] committed) dcKey
          = some newDc) := by
  cases committed with
  | false =>
      left
      constructor <;> simp [Store.crash_during_atomic_write]
  | true =>
      right
      have hw : Store.crash_during_atomic_write st
          [(authKey, newAuth), (dcKey, newDc)] true
            = Store.writeOne (Store.writeOne st authKey newAuth) dcKey newDc := by
        simp [Store.crash_during_atomic_write, Store.atomic_write]
      constructor
      · rw [hw, Store.read_writeOne_other _ _ _ _ hk,
          Store.read_writeOne_self]
      · rw [hw, Store.read_writeOne_self]

/-- Witness for C2 at a concrete store, batch and crash outcome. -/
theorem crash_during_atomic_write_no_mix_witness :
    (Store.read (Store.crash_during_atomic_write
        ([(0, 10), (1, 20)] : Store Nat Nat) [(0, 11), (1, 21)] true) 0
          = Store.read ([(0, 10), (1, 20)] : Store Nat Nat) 0 ∧
     Store.read (Store.crash_during_atomic_write
        ([(0, 10), (1, 20)] : Store Nat Nat) [(0, 11), (1, 21)] true) 1
          = Store.read ([(0, 10), (1, 20)] : Store Nat Nat) 1) ∨
    (Store.read (Store.crash_during_atomic_write
        ([(0, 10), (1, 20)] : Store Nat Nat) [(0, 11), (1, 21)] true) 0
          = some 11 ∧
     Store.read (Store.crash_during_atomic_write
        ([(0, 10), (1, 20)] : Store Nat Nat) [(0, 11), (1, 21)] true) 1
          = some 21) :=
  crash_during_atomic_write_no_mix [(0, 10), (1, 20)] 0 1 11 21
    (by decide) true

/-- C1 (counterexample): the claim that `clone` copies the DC info is false
on the code.  With the subclass state modelled as a DC number, a source
session with DC state `5` cloned with no target yields a fresh instance
whose DC state is the constructor value `0`, not `5`. -/
theorem clone_does_not_copy_ext_cx :
    ¬ ((Session.clone (0 : Nat)
          { report_errors := true, flood_sleep_threshold := 60, ext := 5 }
          CloneTarget.pyNone).ext = 5) := by
  decide

/-- C1 (amended): for every session `s`, `clone` with no target produces a
new session whose flags `report_errors` and `flood_sleep_threshold` equal
those of `s`; DC info, auth secret and caches are not copied by the shared
base class — the fresh instance keeps its own constructor state. -/
theorem clone_copies_flags_not_ext {ε : Type} (freshExt : ε) (s : Session ε) :
    (Session.clone freshExt s CloneTarget.pyNone).report_errors
        = s.report_errors ∧
    (Session.clone freshExt s CloneTarget.pyNone).flood_sleep_threshold
        = s.flood_sleep_threshold ∧
    (Session.clone freshExt s CloneTarget.pyNone).ext = freshExt :=
  ⟨rfl, rfl, rfl⟩

/-- C3: the base-class `clone` copies exactly the two scalar flags from the
source session, and no other state: the clone's remaining state is that of
the provided target when a truthy target is given, and the fresh
constructor state otherwise — never anything of the source. -/
theorem clone_copies_exactly_two_flags {ε : Type} (freshExt : ε)
    (s : Session ε) (tgt : CloneTarget ε) :
    (Session.clone freshExt s tgt).report_errors = s.report_errors ∧
    (Session.clone freshExt s tgt).flood_sleep_threshold
        = s.flood_sleep_threshold ∧
    (Session.clone freshExt s tgt).ext =
      (match tgt with
       | CloneTarget.inst t true => t.ext
       | _ => freshExt) := by
  refine ⟨rfl, rfl, ?_⟩
  cases tgt with
  | pyNone => rfl
  | pyFalse => rfl
  | pyZero => rfl
  | inst t b => cases b <;> rfl

/-- C4: every newly constructed session has `report_errors = true` and
`flood_sleep_threshold = 60`. -/
theorem init_default_flags {ε : Type} (freshExt : ε) :
    (Session.init freshExt).report_errors = true ∧
    (Session.init freshExt).flood_sleep_threshold = 60 :=
  ⟨rfl, rfl⟩

/-- C5: setting a flag and then reading it returns the written value, for
both flags; the setters change only the in-memory flag fields and leave the
subclass-held (persistent) state `ext` untouched. -/
theorem flag_set_get_roundtrip {ε : Type} (s : Session ε) (v : Bool)
    (w : Int) :
    (Session.set_report_errors s v).report_errors = v ∧
    (Session.set_flood_sleep_threshold s w).flood_sleep_threshold = w ∧
    (Session.set_report_errors s v).ext = s.ext ∧
    (Session.set_flood_sleep_threshold s w).ext = s.ext :=
  ⟨rfl, rfl, rfl, rfl⟩

/-- C6: `clone` with no target returns a fresh instance of the source's
class (constructor state, with the two flags then copied over); `clone`
with a provided target returns that target itself with only the two flags
updated, not a newly constructed object. -/
theorem clone_target_selection {ε : Type} (freshExt : ε) (s t : Session ε) :
    Session.clone freshExt s CloneTarget.pyNone =
      { Session.init freshExt with
          report_errors := s.report_errors,
          flood_sleep_threshold := s.flood_sleep_threshold } ∧
    Session.clone freshExt s (CloneTarget.inst t true) =
      { t with report_errors := s.report_errors,
               flood_sleep_threshold := s.flood_sleep_threshold } :=
  ⟨rfl, rfl⟩

/-- C7: the default `list_sessions` of the shared base class returns the
empty sequence.  It is a constant that reads no session state, so no other
operation of the class depends on calling it. -/
theorem list_sessions_default_empty (ε : Type) :
    Session.list_sessions ε = [] := rfl

/-- C8: any falsy clone target — `None`, `False`, `0`, or a session object
a subclass makes falsy — is treated as absent by the `or` expression:
`clone` constructs a fresh instance of the source's class instead of
cloning into the provided target. -/
theorem clone_falsy_target_is_absent {ε : Type} (freshExt : ε)
    (s : Session ε) (tgt : CloneTarget ε)
    (h : CloneTarget.isTruthy tgt = false) :
    Session.clone freshExt s tgt =
      { Session.init freshExt with
          report_errors := s.report_errors,
          flood_sleep_threshold := s.flood_sleep_threshold } := by
  cases tgt with
  | pyNone => rfl
  | pyFalse => rfl
  | pyZero => rfl
  | inst t b =>
      cases b with
      | false => rfl
      | true => simp [CloneTarget.isTruthy] at h

/-- Witness for C8 at a concrete falsy target. -/
theorem clone_falsy_target_is_absent_witness :
    Session.clone (0 : Nat)
        { report_errors := false, flood_sleep_threshold := 5, ext := 7 }
        CloneTarget.pyFalse =
      { Session.init (0 : Nat) with
          report_errors := false, flood_sleep_threshold := 5 } :=
  clone_falsy_target_is_absent 0
    { report_errors := false, flood_sleep_threshold := 5, ext := 7 }
    CloneTarget.pyFalse rfl

/-- C9: `clone` never modifies the source session.  The method writes only
to the object named `cloned`, which can alias the source only when the
source itself is passed as the target; in that case the assigned values are
read from the source, so every field is unchanged after the call. -/
theorem clone_leaves_source_unchanged {ε : Type} (freshExt : ε)
    (s : Session ε) :
    Session.clone freshExt s (CloneTarget.inst s true) = s := rfl

/-- C10: each flag setter modifies only its own field: setting
`report_errors` leaves `flood_sleep_threshold` and the remaining state
unchanged, and setting `flood_sleep_threshold` leaves `report_errors` and
the remaining state unchanged. -/
theorem flag_setters_frame {ε : Type} (s : Session ε) (v : Bool) (w : Int) :
    (Session.set_report_errors s v).flood_sleep_threshold
        = s.flood_sleep_threshold ∧
    (Session.set_report_errors s v).ext = s.ext ∧
    (Session.set_flood_sleep_threshold s w).report_errors
        = s.report_errors ∧
    (Session.set_flood_sleep_threshold s w).ext = s.ext :=
  ⟨rfl, rfl, rfl, rfl⟩

end Telethon
